import Mathlib

/-!
Verification development for `igm/modules/particles_v1.py` (IGM particle
tracking module).  The module is embedded shallowly over exact rationals:

* 2D grid fields become functions `ℤ → ℤ → ℚ` (row index `j` along y,
  column index `i` along x), matching the `(ny, nx)`-shaped tensors of the
  source; the float literal `0.1` of the source's branch thresholds is
  modelled as the exact rational `1/10`.
* the per-particle parallel arrays (`xpos`, `ypos`, `zpos`, `rhpos`,
  `wpos`, `tpos`, `englt`) become a `List Particle`;
* `tfa.image.interpolate_bilinear` (indexing="ij") is translated with its
  exact clamping behaviour: floors are clamped to `[0, size-2]` and the
  interpolation weights (alphas) to `[0, 1]`;
* `tf.cast(·, int32)` on indices truncates toward zero (`pyTrunc`);
* `tf.tensor_scatter_nd_add` applies each update at its index when the
  index is inside the grid and drops it otherwise (out-of-bound scatter
  indices are ignored on GPU and are an error on CPU: either way no weight
  reaches the grid for them);
* `compute_gradient_tf` and `compute_divflux` live in `igm.modules.utils`,
  outside this module; the update step is parameterized over them
  (`ExternalOps`), as the source treats them as external collaborators.
* `self.tlast_seeding = -1.0e5000` evaluates to the float `-inf`; the
  timer is modelled as `Option ℚ` with `none` standing for `-inf`.
-/

/-- A 2D grid field, indexed (row = y-direction, column = x-direction). -/
abbrev Grid := ℤ → ℤ → ℚ

/-- One tracked particle: the seven index-aligned attribute arrays of the
source (`self.xpos`, ..., `self.englt`) collected into a record. -/
structure Particle where
  xpos : ℚ
  ypos : ℚ
  zpos : ℚ
  rhpos : ℚ
  wpos : ℚ
  tpos : ℚ
  englt : ℚ
deriving Repr, DecidableEq

/-- The read-only per-timestep grid inputs of `update_particles_v1` plus the
grid geometry (`self.x`, `self.y` are uniform with spacing `dx` and origins
`x0`, `y0`; `self.X[j,i] = x0 + i*dx`, `self.Y[j,i] = y0 + j*dx`). -/
structure Glacier where
  ny : ℕ
  nx : ℕ
  dx : ℚ
  x0 : ℚ
  y0 : ℚ
  uvelbase : Grid
  vvelbase : Grid
  uvelsurf : Grid
  vvelsurf : Grid
  thk : Grid
  topg : Grid
  smb : Grid
  usurf : Grid
  ubar : Grid
  vbar : Grid

/-- `self.x[-1]` for the uniform coordinate vector `x`. -/
def xlast (g : Glacier) : ℚ := g.x0 + (((g.nx : ℤ) - 1 : ℤ) : ℚ) * g.dx

/-- `self.y[-1]` for the uniform coordinate vector `y`. -/
def ylast (g : Glacier) : ℚ := g.y0 + (((g.ny : ℤ) - 1 : ℤ) : ℚ) * g.dx

/-- The configuration surface of `params_particles_v1`. -/
structure Params where
  tracking_method : String
  frequency_seeding : ℚ
  density_seeding : ℚ

/-- Mutable module state: the particle store, the seeding timer
(`none` models the initial `-inf`), and the fixed seed mask. -/
structure SimState where
  particles : List Particle
  tlast_seeding : Option ℚ
  gridseed : ℤ → ℤ → Bool

/-- The two external numerical operators imported from `igm.modules.utils`:
`compute_gradient_tf` (centered-difference gradient, returning the two slope
grids) and `compute_divflux` (depth-integrated flux divergence). -/
structure ExternalOps where
  compute_gradient_tf : Grid → ℚ → ℚ → Grid × Grid
  compute_divflux : Grid → Grid → Grid → ℚ → ℚ → Grid

/-- `tf.clip_by_value v lo hi = max (min v hi) lo`. -/
def clip_by_value (v lo hi : ℚ) : ℚ := max (min v hi) lo

/-- Python `int(·)` / `tf.cast(·, int32)`: truncation toward zero. -/
def pyTrunc (q : ℚ) : ℤ := if 0 ≤ q then ⌊q⌋ else -⌊-q⌋

/-- The clamped floor of `tfa.image.interpolate_bilinear`: the query's floor
clamped into `[0, size-2]`. -/
def interpFloor (n : ℕ) (q : ℚ) : ℤ := max 0 (min ⌊q⌋ ((n : ℤ) - 2))

/-- The interpolation weight of `tfa.image.interpolate_bilinear`: the query
minus its clamped floor, clamped into `[0, 1]`. -/
def interpAlpha (n : ℕ) (q : ℚ) : ℚ :=
  max 0 (min (q - ((interpFloor n q : ℤ) : ℚ)) 1)

/-- `tfa.image.interpolate_bilinear(F, (qj, qi), indexing="ij")` for one
query point. -/
def interpolate_bilinear (ny nx : ℕ) (F : Grid) (qj qi : ℚ) : ℚ :=
  let fj := interpFloor ny qj
  let aj := interpAlpha ny qj
  let fi := interpFloor nx qi
  let ai := interpAlpha nx qi
  let top := F fj fi + ai * (F fj (fi + 1) - F fj fi)
  let bot := F (fj + 1) fi + ai * (F (fj + 1) (fi + 1) - F (fj + 1) fi)
  top + aj * (bot - top)

/-- `i = (self.xpos - self.x[0]) / self.dx` (line 88), per particle. -/
def iIdx (g : Glacier) (p : Particle) : ℚ := (p.xpos - g.x0) / g.dx

/-- `j = (self.ypos - self.y[0]) / self.dx` (line 89), per particle. -/
def jIdx (g : Glacier) (p : Particle) : ℚ := (p.ypos - g.y0) / g.dx

/-- Bilinear sampling of a grid field at one particle's fractional indices,
as each `tfa.image.interpolate_bilinear(...)[0, :, 0]` call does. -/
def sampleAt (g : Glacier) (F : Grid) (p : Particle) : ℚ :=
  interpolate_bilinear g.ny g.nx F (jIdx g p) (iIdx g p)

/-- `self.wvelbase = self.uvelbase * sloptopgx + self.vvelbase * sloptopgy`
with `(sloptopgx, sloptopgy) = compute_gradient_tf(self.topg, dx, dx)`. -/
def wvelbaseGrid (ops : ExternalOps) (g : Glacier) : Grid :=
  fun j i =>
    g.uvelbase j i * (ops.compute_gradient_tf g.topg g.dx g.dx).1 j i +
      g.vvelbase j i * (ops.compute_gradient_tf g.topg g.dx g.dx).2 j i

/-- `self.wvelsurf = self.uvelsurf * slopsurfx + self.vvelsurf * slopsurfy
- self.divflux` with `(slopsurfx, slopsurfy) = compute_gradient_tf(self.usurf,
dx, dx)` and `self.divflux = compute_divflux(ubar, vbar, thk, dx, dx)`. -/
def wvelsurfGrid (ops : ExternalOps) (g : Glacier) : Grid :=
  fun j i =>
    g.uvelsurf j i * (ops.compute_gradient_tf g.usurf g.dx g.dx).1 j i +
      g.vvelsurf j i * (ops.compute_gradient_tf g.usurf g.dx g.dx).2 j i -
      ops.compute_divflux g.ubar g.vbar g.thk g.dx g.dx j i

/-- The per-particle body of `update_particles_v1` after the field sampling:
the branch on `params.tracking_method` (lines 138-213) followed by the
englacial-time update (lines 230-232).  `wvelbaseG`/`wvelsurfG` are the two
vertical-velocity grids computed once per step in the "3d" branch. -/
def stepParticle (method : String) (g : Glacier) (wvelbaseG wvelsurfG : Grid)
    (dt : ℚ) (p : Particle) : Particle :=
  let uvelbase := sampleAt g g.uvelbase p
  let vvelbase := sampleAt g g.vvelbase p
  let uvelsurf := sampleAt g g.uvelsurf p
  let vvelsurf := sampleAt g g.vvelsurf p
  let othk := sampleAt g g.thk p
  let topg := sampleAt g g.topg p
  let smb := sampleAt g g.smb p
  let base :=
    if method = "simple" then
      -- new ice thickness after smb update
      let nthk := othk + smb * dt
      let rh := if nthk > 1 / 10 then clip_by_value (p.rhpos * othk / nthk) 0 1 else 1
      let uvel := uvelbase + (uvelsurf - uvelbase) * (1 - (1 - rh) ^ 4)
      let vvel := vvelbase + (vvelsurf - vvelbase) * (1 - (1 - rh) ^ 4)
      { p with
        rhpos := rh
        xpos := p.xpos + dt * uvel
        ypos := p.ypos + dt * vvel
        zpos := topg + nthk * rh }
    else if method = "3d" then
      let wvelbase := sampleAt g wvelbaseG p
      let wvelsurf := sampleAt g wvelsurfG p
      -- make sure the particle remains within the ice body
      let zc := clip_by_value p.zpos topg (topg + othk)
      let rh := if othk > 1 / 10 then (zc - topg) / othk else 1
      let uvel := uvelbase + (uvelsurf - uvelbase) * (1 - (1 - rh) ^ 4)
      let vvel := vvelbase + (vvelsurf - vvelbase) * (1 - (1 - rh) ^ 4)
      let wvel := wvelbase + (wvelsurf - wvelbase) * (1 - (1 - rh) ^ 4)
      { p with
        rhpos := rh
        xpos := clip_by_value (p.xpos + dt * uvel) g.x0 (xlast g)
        ypos := clip_by_value (p.ypos + dt * vvel) g.y0 (ylast g)
        zpos := zc + dt * wvel }
    else p
  { base with englt := base.englt + (if base.rhpos < 1 then dt else 0) }

/-- All grid cells `(j, i)` of an `(ny, nx)` grid in row-major order, the
order in which a numpy boolean mask flattens the grid. -/
def cellList (ny nx : ℕ) : List (ℕ × ℕ) :=
  (List.range ny).flatMap (fun j => (List.range nx).map (fun i => (j, i)))

/-- The seed mask `I = (self.thk > 10) & (self.smb > -2) & self.gridseed`
of `seeding_particles`, per cell. -/
def seedMaskB (g : Glacier) (gridseed : ℤ → ℤ → Bool) (ji : ℕ × ℕ) : Bool :=
  decide (10 < g.thk ji.1 ji.2) && decide (-2 < g.smb ji.1 ji.2) &&
    gridseed ji.1 ji.2

/-- `seeding_particles`: one particle per True cell of the mask, at that
cell's `(X, Y, usurf)` with `rhpos = 1`, `wpos = 1`, `tpos = t`, `englt = 0`. -/
def seeding_particles (g : Glacier) (gridseed : ℤ → ℤ → Bool) (t : ℚ) :
    List Particle :=
  ((cellList g.ny g.nx).filter (seedMaskB g gridseed)).map
    (fun ji =>
      { xpos := g.x0 + (ji.2 : ℚ) * g.dx
        ypos := g.y0 + (ji.1 : ℚ) * g.dx
        zpos := g.usurf ji.1 ji.2
        rhpos := 1
        wpos := 1
        tpos := t
        englt := 0 })

/-- The seeding trigger `(self.t - self.tlast_seeding) >= params.frequency_seeding`
(line 70); `none` is the initial `-inf`, for which the trigger always fires. -/
def seedingFires (params : Params) (tlast : Option ℚ) (t : ℚ) : Bool :=
  match tlast with
  | none => true
  | some tl => decide (params.frequency_seeding ≤ t - tl)

/-- The particle store after the conditional seeding block (lines 70-82):
the new batch is concatenated after the existing particles. -/
def mergedParticles (params : Params) (g : Glacier) (st : SimState) (t : ℚ) :
    List Particle :=
  if seedingFires params st.tlast_seeding t then
    st.particles ++ seeding_particles g st.gridseed t
  else st.particles

/-- `tf.tensor_scatter_nd_add base indices updates`: each update is added at
its `(j, i)` index when that index is inside the `(ny, nx)` grid, and is
dropped otherwise (out-of-bound indices are ignored on GPU, an error on
CPU; in neither case do they add weight to the grid). -/
def tensor_scatter_nd_add (ny nx : ℕ) (base : Grid) :
    List ((ℤ × ℤ) × ℚ) → Grid
  | [] => base
  | e :: rest =>
      tensor_scatter_nd_add ny nx
        (fun j i =>
          if j = e.1.1 ∧ i = e.1.2 ∧ 0 ≤ e.1.1 ∧ e.1.1 < (ny : ℤ) ∧
              0 ≤ e.1.2 ∧ e.1.2 < (nx : ℤ) then
            base j i + e.2
          else base j i)
        rest

/-- The integer scatter cell of a particle: `(tf.cast(j, int32),
tf.cast(i, int32))` with `i`, `j` the fractional indices of lines 88-89. -/
def preCell (g : Glacier) (p : Particle) : ℤ × ℤ :=
  (pyTrunc (jIdx g p), pyTrunc (iIdx g p))

/-- A scatter index lies inside the `(ny, nx)` grid. -/
def cellInBounds (ny nx : ℕ) (ji : ℤ × ℤ) : Prop :=
  0 ≤ ji.1 ∧ ji.1 < (ny : ℤ) ∧ 0 ≤ ji.2 ∧ ji.2 < (nx : ℤ)

instance (ny nx : ℕ) (ji : ℤ × ℤ) : Decidable (cellInBounds ny nx ji) := by
  unfold cellInBounds; infer_instance

/-- One call of `update_particles_v1`: conditional seeding, field sampling,
the tracking branch, the weight scatter and the englacial-time update.
Returns the new state and the output grid `self.weight_particles`.  The
fractional indices `i`, `j` are computed from the particle positions at the
start of the call (lines 88-89) and the scatter cast (lines 215-221) reuses
them; the updates (line 222) use the post-branch `self.rhpos`.  The
vertical-velocity grids are computed here unconditionally: the source
computes them inside the "3d" branch, and they are pure values consumed
only by that branch. -/
def update_particles_v1 (params : Params) (ops : ExternalOps) (g : Glacier)
    (t dt : ℚ) (st : SimState) : SimState × Grid :=
  let parts := mergedParticles params g st t
  let tlast := if seedingFires params st.tlast_seeding t then some t
    else st.tlast_seeding
  let moved := parts.map
    (stepParticle params.tracking_method g (wvelbaseGrid ops g)
      (wvelsurfGrid ops g) dt)
  let entries := (parts.zip moved).map
    (fun pq => (preCell g pq.1, if pq.2.rhpos = 1 then pq.1.wpos else 0))
  let weight := tensor_scatter_nd_add g.ny g.nx (fun _ _ => 0) entries
  ({ st with particles := moved, tlast_seeding := tlast }, weight)

/-- Membership in the index set of the numpy basic slice `a[::rr]` of a
length-`n` axis: for a positive step the indices `0, rr, 2*rr, ...`; for a
negative step the indices `n-1, n-1+rr, ...`; a zero step is an error and
is guarded against before this is used. -/
def npSliceMem (n : ℕ) (rr : ℤ) (k : ℤ) : Bool :=
  if 0 < rr then decide (0 ≤ k ∧ k < (n : ℤ) ∧ k % rr = 0)
  else if rr < 0 then
    decide (0 ≤ k ∧ k < (n : ℤ) ∧ ((n : ℤ) - 1 - k) % (-rr) = 0)
  else false

/-- `rr = int(1.0 / params.density_seeding)` (line 60): truncation toward
zero of the reciprocal. -/
def seedStride (density : ℚ) : ℤ := pyTrunc (1 / density)

/-- `init_particles_v1`: empty particle store, timer at `-inf` (`none`),
and the strided seed mask `gridseed[::rr, ::rr] = True`.  The only failure
paths are the ones Python itself raises on: division by zero when
`density_seeding = 0`, and a zero slice step when `int(1/density_seeding)`
is `0`; no configuration validation is performed. -/
def init_particles_v1 (params : Params) (g : Glacier) :
    Except String SimState :=
  if params.density_seeding = 0 then
    Except.error "ZeroDivisionError: float division by zero"
  else
    let rr := seedStride params.density_seeding
    if rr = 0 then Except.error "ValueError: slice step cannot be zero"
    else
      Except.ok
        { particles := []
          tlast_seeding := none
          gridseed := fun j i => npSliceMem g.ny rr j && npSliceMem g.nx rr i }

/-- Whether initialization completed without raising. -/
def initSucceeds (params : Params) (g : Glacier) : Bool :=
  match init_particles_v1 params g with
  | Except.ok _ => true
  | Except.error _ => false

/-- The seed mask produced by initialization (all-False when
initialization raised). -/
def gridseedOf : Except String SimState → ℤ → ℤ → Bool
  | Except.ok st => st.gridseed
  | Except.error _ => fun _ _ => false

/-- Total of a grid over its `(ny, nx)` domain. -/
def gridTotal (ny nx : ℕ) (F : Grid) : ℚ :=
  ∑ j ∈ Finset.range ny, ∑ i ∈ Finset.range nx, F (j : ℤ) (i : ℤ)

/-- The weight grid recomputed directly from a particle store: scatter of
`wpos` of the particles with `rhpos = 1`, at their truncated cells, onto a
zero grid. -/
def weightFromStore (g : Glacier) (ps : List Particle) : Grid :=
  tensor_scatter_nd_add g.ny g.nx (fun _ _ => 0)
    (ps.map (fun p => (preCell g p, if p.rhpos = 1 then p.wpos else 0)))

/-! Concrete fixtures for closed evaluations. -/

/-- The all-zero grid. -/
def zeroGrid : Grid := fun _ _ => 0

/-- External operators that return zero slopes and zero flux divergence. -/
def zeroOps : ExternalOps where
  compute_gradient_tf := fun _ _ _ => (zeroGrid, zeroGrid)
  compute_divflux := fun _ _ _ _ _ => zeroGrid

/-- A 3x3 glacier with `dx = 1`, origin `(0,0)`, zero thickness and a
uniform horizontal velocity `u = 2` at base and surface. -/
def gA : Glacier where
  ny := 3
  nx := 3
  dx := 1
  x0 := 0
  y0 := 0
  uvelbase := fun _ _ => 2
  vvelbase := zeroGrid
  uvelsurf := fun _ _ => 2
  vvelsurf := zeroGrid
  thk := zeroGrid
  topg := zeroGrid
  smb := zeroGrid
  usurf := zeroGrid
  ubar := zeroGrid
  vbar := zeroGrid

/-- A surface particle in the interior of cell `(0,0)` of `gA`. -/
def pA : Particle where
  xpos := 1/2
  ypos := 1/2
  zpos := 0
  rhpos := 1
  wpos := 1
  tpos := 0
  englt := 0

/-- A single-particle state whose timer blocks seeding at `t = 0` for
`frequency_seeding = 10`. -/
def stA : SimState where
  particles := [pA]
  tlast_seeding := some 0
  gridseed := fun _ _ => false

/-- "simple"-mode configuration. -/
def prSimple : Params where
  tracking_method := "simple"
  frequency_seeding := 10
  density_seeding := 1/5

/-- A particle left of the domain of `gA` (`x = -5` maps to column `-5`). -/
def pB : Particle where
  xpos := -5
  ypos := 1/2
  zpos := 0
  rhpos := 1
  wpos := 1
  tpos := 0
  englt := 0

/-- A single-particle state holding only the out-of-domain particle `pB`. -/
def stB : SimState where
  particles := [pB]
  tlast_seeding := some 0
  gridseed := fun _ _ => false

/-- A configuration whose `frequency_seeding` is non-positive. -/
def prBadFreq : Params where
  tracking_method := "3d"
  frequency_seeding := 0
  density_seeding := 1/5

/-! Shared evaluation lemmas. -/

/-- Sampling a pointwise-constant field yields that constant. -/
lemma sampleAt_const (g : Glacier) (F : Grid) (c : ℚ) (p : Particle)
    (hF : ∀ j i, F j i = c) : sampleAt g F p = c := by
  simp [sampleAt, interpolate_bilinear, hF]

/-- Zipping a list with its own map and mapping the pairs is a single map. -/
lemma zip_self_map {α β γ : Type} (f : α → β) (h : α × β → γ) :
    ∀ l : List α, ((l.zip (l.map f)).map h) = l.map (fun a => h (a, f a))
  | [] => rfl
  | a :: l => by simp [zip_self_map f h l]

/-- The particle store after one update: the merged store mapped through the
per-particle step. -/
lemma update_particles_fst (params : Params) (ops : ExternalOps) (g : Glacier)
    (t dt : ℚ) (st : SimState) :
    (update_particles_v1 params ops g t dt st).1.particles =
      (mergedParticles params g st t).map
        (stepParticle params.tracking_method g (wvelbaseGrid ops g)
          (wvelsurfGrid ops g) dt) := rfl

/-- The timer after one update. -/
lemma update_tlast (params : Params) (ops : ExternalOps) (g : Glacier)
    (t dt : ℚ) (st : SimState) :
    (update_particles_v1 params ops g t dt st).1.tlast_seeding =
      (if seedingFires params st.tlast_seeding t then some t
        else st.tlast_seeding) := rfl

/-- The weight grid after one update, as a scatter of one entry per merged
particle: index from the pre-step position, update from the post-step
relative height. -/
lemma update_weight (params : Params) (ops : ExternalOps) (g : Glacier)
    (t dt : ℚ) (st : SimState) :
    (update_particles_v1 params ops g t dt st).2 =
      tensor_scatter_nd_add g.ny g.nx (fun _ _ => 0)
        ((mergedParticles params g st t).map (fun p =>
          (preCell g p,
            if (stepParticle params.tracking_method g (wvelbaseGrid ops g)
                  (wvelsurfGrid ops g) dt p).rhpos = 1 then
              p.wpos
            else 0))) := by
  simp only [update_particles_v1]
  rw [zip_self_map]

/-- `stepParticle` never changes a particle's weight. -/
lemma stepParticle_wpos (method : String) (g : Glacier) (wvb wvs : Grid)
    (dt : ℚ) (p : Particle) : (stepParticle method g wvb wvs dt p).wpos = p.wpos := by
  simp only [stepParticle]
  split_ifs <;> rfl

/-- Over `gA` (zero thickness, `u = 2`, `dt = 1`) the "simple" step moves
`pA` two cells to the right and leaves everything else unchanged. -/
lemma gA_step (wvb wvs : Grid) :
    stepParticle "simple" gA wvb wvs 1 pA = { pA with xpos := 5/2 } := by
  have h0 : sampleAt gA gA.thk pA = 0 :=
    sampleAt_const _ _ _ _ (fun j i => by simp [gA, zeroGrid])
  have hs : sampleAt gA gA.smb pA = 0 :=
    sampleAt_const _ _ _ _ (fun j i => by simp [gA, zeroGrid])
  have ht : sampleAt gA gA.topg pA = 0 :=
    sampleAt_const _ _ _ _ (fun j i => by simp [gA, zeroGrid])
  have hub : sampleAt gA gA.uvelbase pA = 2 :=
    sampleAt_const _ _ _ _ (fun j i => by simp [gA])
  have hus : sampleAt gA gA.uvelsurf pA = 2 :=
    sampleAt_const _ _ _ _ (fun j i => by simp [gA])
  have hvb : sampleAt gA gA.vvelbase pA = 0 :=
    sampleAt_const _ _ _ _ (fun j i => by simp [gA, zeroGrid])
  have hvs : sampleAt gA gA.vvelsurf pA = 0 :=
    sampleAt_const _ _ _ _ (fun j i => by simp [gA, zeroGrid])
  simp only [stepParticle, h0, hs, ht, hub, hus, hvb, hvs]
  norm_num [pA]

/-- At `t = 0` the timer `some 0` blocks seeding for `prSimple`. -/
lemma gA_merged : mergedParticles prSimple gA stA 0 = [pA] := by
  simp only [mergedParticles, seedingFires, stA, prSimple]
  norm_num

/-- `pA` starts in cell `(0,0)`. -/
lemma gA_precell : preCell gA pA = (0, 0) := by
  norm_num [preCell, pyTrunc, iIdx, jIdx, gA, pA]

/-- C1 counterexample: in "simple" mode over `gA` with `dt = 1` the single
particle `pA` ends the step at `x = 5/2`, i.e. in cell `(0,2)`, with
`rhpos = 1` and `wpos = 1`; yet the weight grid holds `0` at `(0,2)` and
`1` at the pre-integration cell `(0,0)` — the scatter indices are the ones
computed before the integrator step, not after it. -/
theorem C1_counterexample :
    (update_particles_v1 prSimple zeroOps gA 0 1 stA).2 0 2 = 0 ∧
    (update_particles_v1 prSimple zeroOps gA 0 1 stA).2 0 0 = 1 ∧
    (update_particles_v1 prSimple zeroOps gA 0 1 stA).1.particles =
      [{ pA with xpos := 5/2 }] ∧
    preCell gA { pA with xpos := 5/2 } = (0, 2) ∧
    ({ pA with xpos := 5/2 } : Particle).rhpos = 1 ∧
    ({ pA with xpos := 5/2 } : Particle).wpos = 1 := by
  have hu : (update_particles_v1 prSimple zeroOps gA 0 1 stA).1.particles =
      [{ pA with xpos := 5/2 }] := by
    simp only [update_particles_v1, gA_merged,
      show prSimple.tracking_method = "simple" from rfl, gA_step, List.map_cons, List.map_nil]
  have hw : ∀ jj ii : ℤ, (update_particles_v1 prSimple zeroOps gA 0 1 stA).2 jj ii =
      tensor_scatter_nd_add gA.ny gA.nx (fun _ _ => 0) [((0, 0), 1)] jj ii := by
    intro jj ii
    simp only [update_particles_v1, gA_merged,
      show prSimple.tracking_method = "simple" from rfl, gA_step, List.map_cons, List.map_nil,
      List.zip_cons_cons, List.zip_nil_right, gA_precell]
    norm_num [pA]
  refine ⟨?_, ?_, hu, ?_, by norm_num [pA], by norm_num [pA]⟩
  · rw [hw]; norm_num [tensor_scatter_nd_add]
  · rw [hw]; norm_num [tensor_scatter_nd_add, gA]
  · norm_num [preCell, pyTrunc, iIdx, jIdx, gA, pA]

/-- C1 (amended): the scatter-add deposits a particle's weight into the
grid cell containing its pre-integration position — the position at which
the fractional indices were computed before the tracking branch ran.  For a
single-particle store with seeding blocked, an in-bounds pre-step cell and
post-step `rhpos = 1`, the weight grid at the pre-step cell equals the
particle's weight. -/
theorem C1_weight_at_pre_cell (params : Params) (ops : ExternalOps)
    (g : Glacier) (t dt tl : ℚ) (st : SimState) (p : Particle)
    (hp : st.particles = [p])
    (htl : st.tlast_seeding = some tl)
    (hnf : t - tl < params.frequency_seeding)
    (hb : cellInBounds g.ny g.nx (preCell g p))
    (hr : (stepParticle params.tracking_method g (wvelbaseGrid ops g)
        (wvelsurfGrid ops g) dt p).rhpos = 1) :
    (update_particles_v1 params ops g t dt st).2 (preCell g p).1
      (preCell g p).2 = p.wpos := by
  have hfire : seedingFires params st.tlast_seeding t = false := by
    simp [seedingFires, htl, not_le.mpr hnf]
  have hm : mergedParticles params g st t = [p] := by
    simp [mergedParticles, hfire, hp]
  unfold cellInBounds at hb
  rw [update_weight, hm]
  simp only [List.map_cons, List.map_nil, hr, if_true, eq_self_iff_true,
    tensor_scatter_nd_add]
  rw [if_pos ⟨trivial, trivial, hb.1, hb.2.1, hb.2.2.1, hb.2.2.2⟩]
  exact zero_add p.wpos

/-- C1 witness: the amended statement instantiated over `gA` at `pA`. -/
theorem C1_weight_at_pre_cell_witness :
    stA.particles = [pA] ∧
    (0 : ℚ) - 0 < prSimple.frequency_seeding ∧
    cellInBounds gA.ny gA.nx (preCell gA pA) ∧
    (stepParticle prSimple.tracking_method gA (wvelbaseGrid zeroOps gA)
        (wvelsurfGrid zeroOps gA) 1 pA).rhpos = 1 ∧
    (update_particles_v1 prSimple zeroOps gA 0 1 stA).2 (preCell gA pA).1
      (preCell gA pA).2 = pA.wpos := by
  have hr : (stepParticle prSimple.tracking_method gA (wvelbaseGrid zeroOps gA)
      (wvelsurfGrid zeroOps gA) 1 pA).rhpos = 1 := by
    rw [show prSimple.tracking_method = "simple" from rfl, gA_step]
    norm_num [pA]
  have hb : cellInBounds gA.ny gA.nx (preCell gA pA) := by
    rw [gA_precell]
    unfold cellInBounds
    norm_num [gA]
  exact ⟨rfl, by norm_num [prSimple], hb, hr,
    C1_weight_at_pre_cell prSimple zeroOps gA 0 1 0 stA pA rfl rfl
      (by norm_num [prSimple]) hb hr⟩

/-- The relative height produced by the "simple" branch. -/
lemma stepParticle_rhpos_simple (g : Glacier) (wvb wvs : Grid) (dt : ℚ)
    (p : Particle) :
    (stepParticle "simple" g wvb wvs dt p).rhpos =
      (if sampleAt g g.thk p + sampleAt g g.smb p * dt > 1 / 10 then
        clip_by_value (p.rhpos * sampleAt g g.thk p /
          (sampleAt g g.thk p + sampleAt g g.smb p * dt)) 0 1
      else 1) := by
  simp only [stepParticle, if_true, if_false]

/-- The relative height produced by the "3d" branch. -/
lemma stepParticle_rhpos_3d (g : Glacier) (wvb wvs : Grid) (dt : ℚ)
    (p : Particle) :
    (stepParticle "3d" g wvb wvs dt p).rhpos =
      (if sampleAt g g.thk p > 1 / 10 then
        (clip_by_value p.zpos (sampleAt g g.topg p)
            (sampleAt g g.topg p + sampleAt g g.thk p) -
          sampleAt g g.topg p) / sampleAt g g.thk p
      else 1) := by
  simp only [stepParticle, eq_false (show ¬(("3d" : String) = "simple") by decide),
    eq_self_iff_true, if_true, if_false]

/-- The post-step x-position produced by the "3d" branch: a clip of the
forward-Euler value into `[x[0], x[-1]]`. -/
lemma stepParticle_xpos_3d (g : Glacier) (wvb wvs : Grid) (dt : ℚ)
    (p : Particle) :
    (stepParticle "3d" g wvb wvs dt p).xpos =
      clip_by_value (p.xpos + dt * (sampleAt g g.uvelbase p +
        (sampleAt g g.uvelsurf p - sampleAt g g.uvelbase p) *
        (1 - (1 - (stepParticle "3d" g wvb wvs dt p).rhpos) ^ 4)))
        g.x0 (xlast g) := by
  simp only [stepParticle, eq_false (show ¬(("3d" : String) = "simple") by decide),
    eq_self_iff_true, if_true, if_false]

/-- The post-step y-position produced by the "3d" branch: a clip of the
forward-Euler value into `[y[0], y[-1]]`. -/
lemma stepParticle_ypos_3d (g : Glacier) (wvb wvs : Grid) (dt : ℚ)
    (p : Particle) :
    (stepParticle "3d" g wvb wvs dt p).ypos =
      clip_by_value (p.ypos + dt * (sampleAt g g.vvelbase p +
        (sampleAt g g.vvelsurf p - sampleAt g g.vvelbase p) *
        (1 - (1 - (stepParticle "3d" g wvb wvs dt p).rhpos) ^ 4)))
        g.y0 (ylast g) := by
  simp only [stepParticle, eq_false (show ¬(("3d" : String) = "simple") by decide),
    eq_self_iff_true, if_true, if_false]

/-- The post-step elevation produced by the "3d" branch: the clamped
pre-step elevation plus `dt` times the blended vertical velocity, with no
further clamp. -/
lemma stepParticle_zpos_3d (g : Glacier) (wvb wvs : Grid) (dt : ℚ)
    (p : Particle) :
    (stepParticle "3d" g wvb wvs dt p).zpos =
      clip_by_value p.zpos (sampleAt g g.topg p)
          (sampleAt g g.topg p + sampleAt g g.thk p) +
        dt * (sampleAt g wvb p + (sampleAt g wvs p - sampleAt g wvb p) *
          (1 - (1 - (stepParticle "3d" g wvb wvs dt p).rhpos) ^ 4)) := by
  simp only [stepParticle, eq_false (show ¬(("3d" : String) = "simple") by decide),
    eq_self_iff_true, if_true, if_false]

/-- C2: after one advection step in either tracking mode ("simple" or
"3d"), the particle's relative height lies in the closed interval `[0,1]`,
given a non-negative sampled ice thickness.  In "simple" mode the value is
either a `[0,1]`-clip or `1`; in "3d" mode it is the ratio of the
pre-clamped elevation offset to the sampled thickness, or `1`. -/
theorem C2_rhpos_in_unit_interval (method : String) (g : Glacier)
    (wvb wvs : Grid) (dt : ℚ) (p : Particle)
    (hm : method = "simple" ∨ method = "3d")
    (hthk : 0 ≤ sampleAt g g.thk p) :
    0 ≤ (stepParticle method g wvb wvs dt p).rhpos ∧
      (stepParticle method g wvb wvs dt p).rhpos ≤ 1 := by
  rcases hm with h | h <;> subst h
  · rw [stepParticle_rhpos_simple]
    simp only [clip_by_value]
    constructor
    · split_ifs with h1
      · exact le_max_right _ _
      · exact zero_le_one
    · split_ifs with h1
      · exact max_le (min_le_right _ _) zero_le_one
      · exact le_refl 1
  · rw [stepParticle_rhpos_3d]
    simp only [clip_by_value]
    constructor
    · split_ifs with h1
      · have hpos : (0 : ℚ) < sampleAt g g.thk p := lt_trans (by norm_num) h1
        apply div_nonneg _ hpos.le
        have := le_max_right
          (min p.zpos (sampleAt g g.topg p + sampleAt g g.thk p))
          (sampleAt g g.topg p)
        linarith
      · exact zero_le_one
    · split_ifs with h1
      · have hpos : (0 : ℚ) < sampleAt g g.thk p := lt_trans (by norm_num) h1
        rw [div_le_one hpos]
        have := max_le
          (min_le_right p.zpos (sampleAt g g.topg p + sampleAt g g.thk p))
          (le_add_of_nonneg_right hthk)
        linarith
      · exact le_refl 1

/-- C2 witness: the invariant instantiated in "simple" mode over `gA`. -/
theorem C2_rhpos_in_unit_interval_witness :
    ("simple" = "simple" ∨ "simple" = "3d") ∧
    (0 : ℚ) ≤ sampleAt gA gA.thk pA ∧
    (0 ≤ (stepParticle "simple" gA zeroGrid zeroGrid 1 pA).rhpos ∧
      (stepParticle "simple" gA zeroGrid zeroGrid 1 pA).rhpos ≤ 1) := by
  have hthk : (0 : ℚ) ≤ sampleAt gA gA.thk pA := by
    rw [sampleAt_const gA gA.thk 0 pA (fun j i => by simp [gA, zeroGrid])]
  exact ⟨Or.inl rfl, hthk,
    C2_rhpos_in_unit_interval "simple" gA zeroGrid zeroGrid 1 pA (Or.inl rfl) hthk⟩

/-- C3: in "3d" mode, the pre-integration clamp puts `zpos` inside
`[bed, bed + thickness]` sampled at the particle's horizontal position
(for non-negative sampled thickness); after integration `xpos` and `ypos`
are clamped into the domain `[x[0], x[-1]] × [y[0], y[-1]]`; and the final
`zpos` is exactly the unclamped forward-Euler value — the clamped
pre-integration elevation plus `dt` times the blended vertical velocity —
so no clamp is applied to `zpos` after its update. -/
theorem C3_3d_domain_clamps (g : Glacier) (wvb wvs : Grid) (dt : ℚ)
    (p : Particle)
    (hthk : 0 ≤ sampleAt g g.thk p)
    (hx : g.x0 ≤ xlast g) (hy : g.y0 ≤ ylast g) :
    (sampleAt g g.topg p ≤
        clip_by_value p.zpos (sampleAt g g.topg p)
          (sampleAt g g.topg p + sampleAt g g.thk p) ∧
      clip_by_value p.zpos (sampleAt g g.topg p)
          (sampleAt g g.topg p + sampleAt g g.thk p) ≤
        sampleAt g g.topg p + sampleAt g g.thk p) ∧
    (g.x0 ≤ (stepParticle "3d" g wvb wvs dt p).xpos ∧
      (stepParticle "3d" g wvb wvs dt p).xpos ≤ xlast g) ∧
    (g.y0 ≤ (stepParticle "3d" g wvb wvs dt p).ypos ∧
      (stepParticle "3d" g wvb wvs dt p).ypos ≤ ylast g) ∧
    (stepParticle "3d" g wvb wvs dt p).zpos =
      clip_by_value p.zpos (sampleAt g g.topg p)
          (sampleAt g g.topg p + sampleAt g g.thk p) +
        dt * (sampleAt g wvb p + (sampleAt g wvs p - sampleAt g wvb p) *
          (1 - (1 - (stepParticle "3d" g wvb wvs dt p).rhpos) ^ 4)) := by
  refine ⟨⟨?_, ?_⟩, ?_, ?_, stepParticle_zpos_3d g wvb wvs dt p⟩
  · simp only [clip_by_value]
    exact le_max_right _ _
  · simp only [clip_by_value]
    exact max_le (min_le_right _ _) (le_add_of_nonneg_right hthk)
  · rw [stepParticle_xpos_3d]
    simp only [clip_by_value]
    exact ⟨le_max_right _ _, max_le (min_le_right _ _) hx⟩
  · rw [stepParticle_ypos_3d]
    simp only [clip_by_value]
    exact ⟨le_max_right _ _, max_le (min_le_right _ _) hy⟩

/-- C3 witness: the "3d" clamping facts instantiated over `gA` at `pA`. -/
theorem C3_3d_domain_clamps_witness :
    (0 : ℚ) ≤ sampleAt gA gA.thk pA ∧ gA.x0 ≤ xlast gA ∧ gA.y0 ≤ ylast gA ∧
    ((sampleAt gA gA.topg pA ≤
        clip_by_value pA.zpos (sampleAt gA gA.topg pA)
          (sampleAt gA gA.topg pA + sampleAt gA gA.thk pA) ∧
      clip_by_value pA.zpos (sampleAt gA gA.topg pA)
          (sampleAt gA gA.topg pA + sampleAt gA gA.thk pA) ≤
        sampleAt gA gA.topg pA + sampleAt gA gA.thk pA) ∧
    (gA.x0 ≤ (stepParticle "3d" gA zeroGrid zeroGrid 1 pA).xpos ∧
      (stepParticle "3d" gA zeroGrid zeroGrid 1 pA).xpos ≤ xlast gA) ∧
    (gA.y0 ≤ (stepParticle "3d" gA zeroGrid zeroGrid 1 pA).ypos ∧
      (stepParticle "3d" gA zeroGrid zeroGrid 1 pA).ypos ≤ ylast gA) ∧
    (stepParticle "3d" gA zeroGrid zeroGrid 1 pA).zpos =
      clip_by_value pA.zpos (sampleAt gA gA.topg pA)
          (sampleAt gA gA.topg pA + sampleAt gA gA.thk pA) +
        1 * (sampleAt gA zeroGrid pA + (sampleAt gA zeroGrid pA - sampleAt gA zeroGrid pA) *
          (1 - (1 - (stepParticle "3d" gA zeroGrid zeroGrid 1 pA).rhpos) ^ 4))) := by
  have hthk : (0 : ℚ) ≤ sampleAt gA gA.thk pA := by
    rw [sampleAt_const gA gA.thk 0 pA (fun j i => by simp [gA, zeroGrid])]
  have hx : gA.x0 ≤ xlast gA := by norm_num [gA, xlast]
  have hy : gA.y0 ≤ ylast gA := by norm_num [gA, ylast]
  exact ⟨hthk, hx, hy, C3_3d_domain_clamps gA zeroGrid zeroGrid 1 pA hthk hx hy⟩

/-- In every branch the step adds `dt` to `englt` exactly when the
post-step relative height is below `1`, and `0` otherwise. -/
lemma stepParticle_englt (method : String) (g : Glacier) (wvb wvs : Grid)
    (dt : ℚ) (p : Particle) :
    (stepParticle method g wvb wvs dt p).englt =
      p.englt +
        (if (stepParticle method g wvb wvs dt p).rhpos < 1 then dt else 0) := by
  by_cases h1 : method = "simple"
  · subst h1
    simp only [stepParticle, eq_self_iff_true, if_true]
  · by_cases h2 : method = "3d"
    · subst h2
      simp only [stepParticle, eq_false h1, eq_self_iff_true, if_true, if_false]
    · simp only [stepParticle, if_neg h1, if_neg h2]

/-- C9: on every update call, a particle whose post-step relative height is
below `1` has its englacial time increased by exactly `dt`, and a particle
whose post-step relative height equals `1` keeps its englacial time; the
updated store is the merged store mapped through the per-particle step. -/
theorem C9_englacial_time (params : Params) (ops : ExternalOps) (g : Glacier)
    (t dt : ℚ) (st : SimState) :
    (update_particles_v1 params ops g t dt st).1.particles =
      (mergedParticles params g st t).map
        (stepParticle params.tracking_method g (wvelbaseGrid ops g)
          (wvelsurfGrid ops g) dt) ∧
    ∀ p ∈ mergedParticles params g st t,
      ((stepParticle params.tracking_method g (wvelbaseGrid ops g)
          (wvelsurfGrid ops g) dt p).rhpos < 1 →
        (stepParticle params.tracking_method g (wvelbaseGrid ops g)
          (wvelsurfGrid ops g) dt p).englt = p.englt + dt) ∧
      ((stepParticle params.tracking_method g (wvelbaseGrid ops g)
          (wvelsurfGrid ops g) dt p).rhpos = 1 →
        (stepParticle params.tracking_method g (wvelbaseGrid ops g)
          (wvelsurfGrid ops g) dt p).englt = p.englt) := by
  refine ⟨update_particles_fst params ops g t dt st, ?_⟩
  intro p _
  constructor
  · intro hlt
    rw [stepParticle_englt, if_pos hlt]
  · intro heq
    rw [stepParticle_englt, if_neg (by rw [heq]; exact lt_irrefl 1), add_zero]

/-- An unrecognized tracking method: no configuration for it. -/
def prNone : Params where
  tracking_method := "none"
  frequency_seeding := 10
  density_seeding := 1/5

/-- C10: with a tracking method that is neither "simple" nor "3d", the
update performs no advection: every particle keeps its `xpos`, `ypos`,
`zpos` and `rhpos` (only `englt` is updated, from the unchanged `rhpos`),
and the weight grid is the scatter computed from the unchanged store. -/
theorem C10_unknown_method (params : Params) (ops : ExternalOps)
    (g : Glacier) (t dt : ℚ) (st : SimState) (jj ii : ℤ)
    (h1 : params.tracking_method ≠ "simple")
    (h2 : params.tracking_method ≠ "3d") :
    (update_particles_v1 params ops g t dt st).1.particles =
      (mergedParticles params g st t).map
        (fun p => { p with englt := p.englt + (if p.rhpos < 1 then dt else 0) }) ∧
    (update_particles_v1 params ops g t dt st).2 jj ii =
      weightFromStore g (mergedParticles params g st t) jj ii := by
  have hstep : ∀ p : Particle,
      stepParticle params.tracking_method g (wvelbaseGrid ops g)
        (wvelsurfGrid ops g) dt p =
      { p with englt := p.englt + (if p.rhpos < 1 then dt else 0) } := by
    intro p
    simp only [stepParticle, if_neg h1, if_neg h2]
  have hfun : stepParticle params.tracking_method g (wvelbaseGrid ops g)
        (wvelsurfGrid ops g) dt =
      (fun p : Particle =>
        { p with englt := p.englt + (if p.rhpos < 1 then dt else 0) }) :=
    funext hstep
  constructor
  · rw [update_particles_fst, hfun]
  · rw [update_weight, weightFromStore, hfun]

/-- C10 witness: the unknown-method behaviour instantiated at method
"none" over `gA`. -/
theorem C10_unknown_method_witness :
    prNone.tracking_method ≠ "simple" ∧ prNone.tracking_method ≠ "3d" ∧
    ((update_particles_v1 prNone zeroOps gA 0 1 stA).1.particles =
      (mergedParticles prNone gA stA 0).map
        (fun p => { p with englt := p.englt + (if p.rhpos < 1 then (1 : ℚ) else 0) }) ∧
    (update_particles_v1 prNone zeroOps gA 0 1 stA).2 0 0 =
      weightFromStore gA (mergedParticles prNone gA stA 0) 0 0) :=
  ⟨by decide, by decide,
    C10_unknown_method prNone zeroOps gA 0 1 stA 0 0 (by decide) (by decide)⟩

/-- C6: the seeding trigger fires exactly when
`t - tlast_seeding ≥ frequency_seeding`.  Below the threshold the particle
count is unchanged and the timer keeps its value; at or above it the timer
is set to the current time (whether or not the batch is empty). -/
theorem C6_seeding_trigger (params : Params) (ops : ExternalOps)
    (g : Glacier) (t dt : ℚ) (st : SimState) (tl : ℚ)
    (htl : st.tlast_seeding = some tl) :
    (t - tl < params.frequency_seeding →
      (update_particles_v1 params ops g t dt st).1.particles.length =
        st.particles.length ∧
      (update_particles_v1 params ops g t dt st).1.tlast_seeding = some tl) ∧
    (params.frequency_seeding ≤ t - tl →
      (update_particles_v1 params ops g t dt st).1.tlast_seeding = some t) := by
  constructor
  · intro hlt
    have hfire : seedingFires params st.tlast_seeding t = false := by
      simp [seedingFires, htl, not_le.mpr hlt]
    constructor
    · rw [update_particles_fst, List.length_map]
      simp [mergedParticles, hfire]
    · rw [update_tlast, hfire, htl]
      simp
  · intro hge
    have hfire : seedingFires params st.tlast_seeding t = true := by
      simp [seedingFires, htl, hge]
    rw [update_tlast, hfire]
    simp

/-- C6 witness: the trigger facts instantiated over `gA` at `t = 0` with
timer `some 0` and threshold `10`. -/
theorem C6_seeding_trigger_witness :
    stA.tlast_seeding = some 0 ∧
    (((0 : ℚ) - 0 < prSimple.frequency_seeding →
      (update_particles_v1 prSimple zeroOps gA 0 1 stA).1.particles.length =
        stA.particles.length ∧
      (update_particles_v1 prSimple zeroOps gA 0 1 stA).1.tlast_seeding =
        some 0) ∧
    (prSimple.frequency_seeding ≤ (0 : ℚ) - 0 →
      (update_particles_v1 prSimple zeroOps gA 0 1 stA).1.tlast_seeding =
        some (0 : ℚ))) :=
  ⟨rfl, C6_seeding_trigger prSimple zeroOps gA 0 1 stA 0 rfl⟩

/-- C5: when the trigger fires, the merged store is the old store followed
by the new batch; the batch holds exactly one particle per True cell of the
seed mask `I = (thk > 10) ∧ (smb > -2) ∧ gridseed`; every new particle has
`rhpos = 1`, `wpos = 1`, `englt = 0`, `tpos = t`; and every True cell
contributes the particle at that cell's `(x, y)` with `zpos` equal to the
surface elevation there.  The old particles appear unchanged as a prefix. -/
theorem C5_seeding_batch (params : Params) (g : Glacier) (st : SimState)
    (t tl : ℚ) (htl : st.tlast_seeding = some tl)
    (hfire : params.frequency_seeding ≤ t - tl) :
    mergedParticles params g st t =
      st.particles ++ seeding_particles g st.gridseed t ∧
    (seeding_particles g st.gridseed t).length =
      (cellList g.ny g.nx).countP (seedMaskB g st.gridseed) ∧
    (∀ q ∈ seeding_particles g st.gridseed t,
      q.rhpos = 1 ∧ q.wpos = 1 ∧ q.englt = 0 ∧ q.tpos = t) ∧
    (∀ ji ∈ cellList g.ny g.nx, seedMaskB g st.gridseed ji = true →
      ({ xpos := g.x0 + (ji.2 : ℚ) * g.dx
         ypos := g.y0 + (ji.1 : ℚ) * g.dx
         zpos := g.usurf ji.1 ji.2
         rhpos := 1
         wpos := 1
         tpos := t
         englt := 0 } : Particle) ∈ seeding_particles g st.gridseed t) := by
  have hf : seedingFires params st.tlast_seeding t = true := by
    simp [seedingFires, htl, hfire]
  refine ⟨by simp [mergedParticles, hf], ?_, ?_, ?_⟩
  · rw [seeding_particles, List.length_map, List.countP_eq_length_filter]
  · intro q hq
    rw [seeding_particles] at hq
    rcases List.mem_map.mp hq with ⟨ji, _, rfl⟩
    exact ⟨rfl, rfl, rfl, rfl⟩
  · intro ji hji hmask
    rw [seeding_particles]
    exact List.mem_map.mpr ⟨ji, List.mem_filter.mpr ⟨hji, hmask⟩, rfl⟩

/-- A 2x2 glacier with uniform thickness `20`, zero mass balance and
surface elevation `7`. -/
def gB : Glacier where
  ny := 2
  nx := 2
  dx := 1
  x0 := 0
  y0 := 0
  uvelbase := zeroGrid
  vvelbase := zeroGrid
  uvelsurf := zeroGrid
  vvelsurf := zeroGrid
  thk := fun _ _ => 20
  topg := zeroGrid
  smb := zeroGrid
  usurf := fun _ _ => 7
  ubar := zeroGrid
  vbar := zeroGrid

/-- An empty store whose seed mask holds only cell `(0,0)` and whose timer
allows seeding at `t = 10`. -/
def stSeed : SimState where
  particles := []
  tlast_seeding := some 0
  gridseed := fun j i => decide (j = 0) && decide (i = 0)

/-- C5 witness: the seeding batch facts instantiated over `gB` at `t = 10`. -/
theorem C5_seeding_batch_witness :
    stSeed.tlast_seeding = some 0 ∧
    prSimple.frequency_seeding ≤ (10 : ℚ) - 0 ∧
    (mergedParticles prSimple gB stSeed 10 =
      stSeed.particles ++ seeding_particles gB stSeed.gridseed 10 ∧
    (seeding_particles gB stSeed.gridseed 10).length =
      (cellList gB.ny gB.nx).countP (seedMaskB gB stSeed.gridseed) ∧
    (∀ q ∈ seeding_particles gB stSeed.gridseed 10,
      q.rhpos = 1 ∧ q.wpos = 1 ∧ q.englt = 0 ∧ q.tpos = 10) ∧
    (∀ ji ∈ cellList gB.ny gB.nx, seedMaskB gB stSeed.gridseed ji = true →
      ({ xpos := gB.x0 + (ji.2 : ℚ) * gB.dx
         ypos := gB.y0 + (ji.1 : ℚ) * gB.dx
         zpos := gB.usurf ji.1 ji.2
         rhpos := 1
         wpos := 1
         tpos := 10
         englt := 0 } : Particle) ∈ seeding_particles gB stSeed.gridseed 10)) :=
  ⟨rfl, by norm_num [prSimple],
    C5_seeding_batch prSimple gB stSeed 10 0 rfl (by norm_num [prSimple])⟩

/-- `cellInBounds` unfolded. -/
lemma cellInBounds_iff (ny nx : ℕ) (ji : ℤ × ℤ) :
    cellInBounds ny nx ji ↔
      0 ≤ ji.1 ∧ ji.1 < (ny : ℤ) ∧ 0 ≤ ji.2 ∧ ji.2 < (nx : ℤ) := Iff.rfl

/-- For positive density the stride truncation is a floor. -/
lemma seedStride_floor (d : ℚ) (h1 : 0 < d) : seedStride d = ⌊1 / d⌋ := by
  rw [seedStride, pyTrunc, if_pos (le_of_lt (by positivity))]

/-- For density in `(0, 1]` the stride is at least `1`. -/
lemma one_le_seedStride (d : ℚ) (h1 : 0 < d) (h2 : d ≤ 1) :
    1 ≤ seedStride d := by
  rw [seedStride_floor d h1]
  exact Int.le_floor.mpr (by push_cast; exact (one_le_div h1).mpr h2)

/-- When neither Python error path triggers, initialization returns the
empty store with the strided seed mask. -/
lemma init_particles_eq (params : Params) (g : Glacier)
    (hne : params.density_seeding ≠ 0)
    (hrr : seedStride params.density_seeding ≠ 0) :
    init_particles_v1 params g = Except.ok
      { particles := []
        tlast_seeding := none
        gridseed := fun j i =>
          npSliceMem g.ny (seedStride params.density_seeding) j &&
          npSliceMem g.nx (seedStride params.density_seeding) i } := by
  simp only [init_particles_v1]
  rw [if_neg hne, if_neg hrr]

/-- C7 counterexample: at `density_seeding = 3/5` the code's stride
`int(1/density)` is `1`, while `round(1/density)` is `2`. -/
theorem C7_counterexample :
    seedStride (3/5) = 1 ∧ round ((1 : ℚ) / (3/5)) = 2 := by
  constructor
  · rw [seedStride_floor (3/5) (by norm_num)]
    norm_num
  · rw [round_eq]
    norm_num

/-- C7 (amended): the stride is the truncation (floor, for positive input)
of `1/density_seeding`, not its rounding; for density in `(0, 1]` it is at
least `1`, initialization succeeds, and the seed mask is True exactly at
the in-range grid points whose row and column indices are both multiples
of the stride. -/
theorem C7_gridseed_stride (params : Params) (g : Glacier) (j i : ℤ)
    (h1 : 0 < params.density_seeding) (h2 : params.density_seeding ≤ 1)
    (hj1 : 0 ≤ j) (hj2 : j < (g.ny : ℤ))
    (hi1 : 0 ≤ i) (hi2 : i < (g.nx : ℤ)) :
    seedStride params.density_seeding = ⌊1 / params.density_seeding⌋ ∧
    1 ≤ seedStride params.density_seeding ∧
    initSucceeds params g = true ∧
    (gridseedOf (init_particles_v1 params g) j i = true ↔
      seedStride params.density_seeding ∣ j ∧
        seedStride params.density_seeding ∣ i) := by
  have hone := one_le_seedStride params.density_seeding h1 h2
  have hpos : 0 < seedStride params.density_seeding := by omega
  have hinit := init_particles_eq params g (ne_of_gt h1) (by omega)
  refine ⟨seedStride_floor _ h1, hone, ?_, ?_⟩
  · simp only [initSucceeds, hinit]
  · rw [hinit]
    simp only [gridseedOf]
    rw [npSliceMem, npSliceMem, if_pos hpos, if_pos hpos]
    simp only [Bool.and_eq_true, decide_eq_true_eq]
    constructor
    · rintro ⟨⟨-, -, hj⟩, -, -, hi⟩
      exact ⟨Int.dvd_of_emod_eq_zero hj, Int.dvd_of_emod_eq_zero hi⟩
    · rintro ⟨hj, hi⟩
      exact ⟨⟨hj1, hj2, Int.emod_eq_zero_of_dvd hj⟩,
        hi1, hi2, Int.emod_eq_zero_of_dvd hi⟩

/-- C7 witness: the stride and mask characterization instantiated at
density `1/5` over `gA`, at grid point `(0,0)`. -/
theorem C7_gridseed_stride_witness :
    (0 : ℚ) < prSimple.density_seeding ∧ prSimple.density_seeding ≤ 1 ∧
    (0 : ℤ) ≤ 0 ∧ (0 : ℤ) < (gA.ny : ℤ) ∧ (0 : ℤ) < (gA.nx : ℤ) ∧
    (seedStride prSimple.density_seeding = ⌊1 / prSimple.density_seeding⌋ ∧
    1 ≤ seedStride prSimple.density_seeding ∧
    initSucceeds prSimple gA = true ∧
    (gridseedOf (init_particles_v1 prSimple gA) 0 0 = true ↔
      seedStride prSimple.density_seeding ∣ (0 : ℤ) ∧
        seedStride prSimple.density_seeding ∣ (0 : ℤ))) :=
  ⟨by norm_num [prSimple], by norm_num [prSimple], le_refl 0,
    by norm_num [gA], by norm_num [gA],
    C7_gridseed_stride prSimple gA 0 0 (by norm_num [prSimple])
      (by norm_num [prSimple]) (le_refl 0) (by norm_num [gA]) (le_refl 0)
      (by norm_num [gA])⟩

/-- C8 counterexample: a configuration with non-positive
`frequency_seeding` (here `0`) and in-range density initializes without
any error — there is no fail-fast configuration check. -/
theorem C8_counterexample : initSucceeds prBadFreq gA = true := by
  have hrr : seedStride prBadFreq.density_seeding = 5 := by
    rw [seedStride_floor _ (by norm_num [prBadFreq])]
    norm_num [prBadFreq]
  simp only [initSucceeds,
    init_particles_eq prBadFreq gA (by norm_num [prBadFreq]) (by omega)]

/-- C8 (amended): initialization performs no configuration validation: for
every `frequency_seeding` (non-positive included) it succeeds whenever
`density_seeding` lies in `(0, 1]`; out-of-range densities hit only the
incidental Python failures modelled in `init_particles_v1` (zero division,
zero slice step), never a descriptive configuration error. -/
theorem C8_no_fail_fast (params : Params) (g : Glacier)
    (h1 : 0 < params.density_seeding) (h2 : params.density_seeding ≤ 1) :
    initSucceeds params g = true := by
  have hone := one_le_seedStride params.density_seeding h1 h2
  simp only [initSucceeds,
    init_particles_eq params g (ne_of_gt h1) (by omega)]

/-- C8 witness: a valid density with positive frequency also succeeds, via
the amended statement. -/
theorem C8_no_fail_fast_witness :
    (0 : ℚ) < prSimple.density_seeding ∧ prSimple.density_seeding ≤ 1 ∧
    initSucceeds prSimple gA = true :=
  ⟨by norm_num [prSimple], by norm_num [prSimple],
    C8_no_fail_fast prSimple gA (by norm_num [prSimple])
      (by norm_num [prSimple])⟩

/-- Summing an indicator of a fixed in-range integer cell over the range
picks out the single value. -/
lemma sum_ite_int_cell (n : ℕ) (c : ℤ) (u : ℚ) (hc1 : 0 ≤ c)
    (hc2 : c < (n : ℤ)) :
    (∑ k ∈ Finset.range n, if (k : ℤ) = c then u else 0) = u := by
  have hform : ∀ k : ℕ,
      (if (k : ℤ) = c then u else 0) = (if k = c.toNat then u else 0) := by
    intro k
    by_cases h : (k : ℤ) = c
    · rw [if_pos h, if_pos (by omega)]
    · rw [if_neg h, if_neg (by omega)]
  rw [Finset.sum_congr rfl (fun k _ => hform k),
    Finset.sum_ite_eq' (Finset.range n) c.toNat (fun _ => u),
    if_pos (Finset.mem_range.mpr (by omega))]

/-- One scatter update changes the grid total by the update value when its
index is in bounds, and not at all otherwise. -/
lemma gridTotal_pointwise_add (ny nx : ℕ) (base : Grid) (e : (ℤ × ℤ) × ℚ) :
    gridTotal ny nx (fun j i =>
      if j = e.1.1 ∧ i = e.1.2 ∧ 0 ≤ e.1.1 ∧ e.1.1 < (ny : ℤ) ∧
          0 ≤ e.1.2 ∧ e.1.2 < (nx : ℤ) then base j i + e.2 else base j i) =
    gridTotal ny nx base + (if cellInBounds ny nx e.1 then e.2 else 0) := by
  by_cases hb : cellInBounds ny nx e.1
  · obtain ⟨h1, h2, h3, h4⟩ := (cellInBounds_iff ny nx e.1).mp hb
    rw [if_pos hb]
    have key : ∀ j i : ℤ,
        (if j = e.1.1 ∧ i = e.1.2 ∧ 0 ≤ e.1.1 ∧ e.1.1 < (ny : ℤ) ∧
            0 ≤ e.1.2 ∧ e.1.2 < (nx : ℤ) then base j i + e.2 else base j i) =
        base j i + (if j = e.1.1 ∧ i = e.1.2 then e.2 else 0) := by
      intro j i
      by_cases h : j = e.1.1 ∧ i = e.1.2
      · rw [if_pos ⟨h.1, h.2, h1, h2, h3, h4⟩, if_pos h]
      · rw [if_neg (fun hh => h ⟨hh.1, hh.2.1⟩), if_neg h, add_zero]
    simp only [gridTotal, key, Finset.sum_add_distrib]
    congr 1
    have inner : ∀ jn : ℕ,
        (∑ im ∈ Finset.range nx,
          if (jn : ℤ) = e.1.1 ∧ (im : ℤ) = e.1.2 then e.2 else 0) =
        (if (jn : ℤ) = e.1.1 then e.2 else 0) := by
      intro jn
      by_cases h : (jn : ℤ) = e.1.1
      · have hsplit : ∀ im : ℕ,
            (if (jn : ℤ) = e.1.1 ∧ (im : ℤ) = e.1.2 then e.2 else 0) =
            (if (im : ℤ) = e.1.2 then e.2 else 0) := by
          intro im
          by_cases h2' : (im : ℤ) = e.1.2
          · rw [if_pos ⟨h, h2'⟩, if_pos h2']
          · rw [if_neg (fun hh => h2' hh.2), if_neg h2']
        rw [Finset.sum_congr rfl (fun im _ => hsplit im), if_pos h]
        exact sum_ite_int_cell nx e.1.2 e.2 h3 h4
      · rw [if_neg h]
        exact Finset.sum_eq_zero (fun im _ => if_neg (fun hh => h hh.1))
    rw [Finset.sum_congr rfl (fun jn _ => inner jn)]
    exact sum_ite_int_cell ny e.1.1 e.2 h1 h2
  · rw [if_neg hb, add_zero]
    have key : ∀ j i : ℤ,
        (if j = e.1.1 ∧ i = e.1.2 ∧ 0 ≤ e.1.1 ∧ e.1.1 < (ny : ℤ) ∧
            0 ≤ e.1.2 ∧ e.1.2 < (nx : ℤ) then base j i + e.2 else base j i) =
        base j i := by
      intro j i
      rw [if_neg]
      intro hh
      exact hb ((cellInBounds_iff ny nx e.1).mpr
        ⟨hh.2.2.1, hh.2.2.2.1, hh.2.2.2.2.1, hh.2.2.2.2.2⟩)
    simp only [gridTotal, key]

/-- The total of a scatter-add is the base total plus the in-bounds
updates; out-of-bound updates contribute nothing. -/
lemma gridTotal_scatter (ny nx : ℕ) :
    ∀ (es : List ((ℤ × ℤ) × ℚ)) (base : Grid),
      gridTotal ny nx (tensor_scatter_nd_add ny nx base es) =
        gridTotal ny nx base +
          (es.map (fun e => if cellInBounds ny nx e.1 then e.2 else 0)).sum
  | [], base => by simp [tensor_scatter_nd_add]
  | e :: es, base => by
      rw [tensor_scatter_nd_add, gridTotal_scatter ny nx es,
        gridTotal_pointwise_add]
      simp only [List.map_cons, List.sum_cons]
      ring

/-- For a step that preserves weights, the in-bounds scatter entries of a
store sum to the post-step surface weights. -/
lemma weight_entries_sum (g : Glacier) (f : Particle → Particle)
    (hwp : ∀ p, (f p).wpos = p.wpos) :
    ∀ l : List Particle,
      (∀ p ∈ l, cellInBounds g.ny g.nx (preCell g p)) →
      ((l.map (fun p =>
          (preCell g p, if (f p).rhpos = 1 then p.wpos else 0))).map
        (fun e => if cellInBounds g.ny g.nx e.1 then e.2 else 0)).sum =
      (((l.map f).filter (fun q => decide (q.rhpos = 1))).map
        Particle.wpos).sum
  | [], _ => rfl
  | p :: l, hb => by
      have hbp := hb p (List.mem_cons_self p l)
      have hbl : ∀ q ∈ l, cellInBounds g.ny g.nx (preCell g q) :=
        fun q hq => hb q (List.mem_cons_of_mem p hq)
      simp only [List.map_cons, List.sum_cons, List.filter_cons]
      rw [if_pos hbp, weight_entries_sum g f hwp l hbl]
      by_cases h : (f p).rhpos = 1
      · rw [if_pos h]
        simp [h, hwp p]
      · rw [if_neg h]
        simp [h]

/-- C4 (amended): the weight grid starts from zero and its total equals
the sum of `wpos` over the particles whose post-step `rhpos` equals `1`,
for every store whose pre-step truncated cell indices all lie inside the
grid; weight scattered at an out-of-bounds index is dropped. -/
theorem C4_weight_conservation (params : Params) (ops : ExternalOps)
    (g : Glacier) (t dt : ℚ) (st : SimState)
    (hb : ∀ p ∈ mergedParticles params g st t,
      cellInBounds g.ny g.nx (preCell g p)) :
    gridTotal g.ny g.nx (update_particles_v1 params ops g t dt st).2 =
      (((update_particles_v1 params ops g t dt st).1.particles.filter
          (fun q => decide (q.rhpos = 1))).map Particle.wpos).sum := by
  rw [update_weight, gridTotal_scatter, update_particles_fst]
  have hz : gridTotal g.ny g.nx (fun _ _ => 0) = 0 := by simp [gridTotal]
  rw [hz, zero_add]
  exact weight_entries_sum g
    (stepParticle params.tracking_method g (wvelbaseGrid ops g)
      (wvelsurfGrid ops g) dt)
    (stepParticle_wpos params.tracking_method g (wvelbaseGrid ops g)
      (wvelsurfGrid ops g) dt)
    (mergedParticles params g st t) hb

/-- C4 witness: the conservation equality instantiated over `gA` with the
in-domain particle `pA`. -/
theorem C4_weight_conservation_witness :
    (∀ p ∈ mergedParticles prSimple gA stA 0,
      cellInBounds gA.ny gA.nx (preCell gA p)) ∧
    gridTotal gA.ny gA.nx
        (update_particles_v1 prSimple zeroOps gA 0 1 stA).2 =
      (((update_particles_v1 prSimple zeroOps gA 0 1 stA).1.particles.filter
          (fun q => decide (q.rhpos = 1))).map Particle.wpos).sum := by
  have hb : ∀ p ∈ mergedParticles prSimple gA stA 0,
      cellInBounds gA.ny gA.nx (preCell gA p) := by
    intro p hp
    rw [gA_merged] at hp
    simp only [List.mem_singleton] at hp
    subst hp
    rw [gA_precell]
    exact (cellInBounds_iff _ _ _).mpr
      ⟨le_refl 0, by norm_num [gA], le_refl 0, by norm_num [gA]⟩
  exact ⟨hb, C4_weight_conservation prSimple zeroOps gA 0 1 stA hb⟩

/-- Over `gA` (zero thickness, `u = 2`, `dt = 1`) the "simple" step moves
the out-of-domain particle `pB` from `x = -5` to `x = -3`. -/
lemma pB_step (wvb wvs : Grid) :
    stepParticle "simple" gA wvb wvs 1 pB = { pB with xpos := -3 } := by
  have h0 : sampleAt gA gA.thk pB = 0 :=
    sampleAt_const _ _ _ _ (fun j i => by simp [gA, zeroGrid])
  have hs : sampleAt gA gA.smb pB = 0 :=
    sampleAt_const _ _ _ _ (fun j i => by simp [gA, zeroGrid])
  have ht : sampleAt gA gA.topg pB = 0 :=
    sampleAt_const _ _ _ _ (fun j i => by simp [gA, zeroGrid])
  have hub : sampleAt gA gA.uvelbase pB = 2 :=
    sampleAt_const _ _ _ _ (fun j i => by simp [gA])
  have hus : sampleAt gA gA.uvelsurf pB = 2 :=
    sampleAt_const _ _ _ _ (fun j i => by simp [gA])
  have hvb : sampleAt gA gA.vvelbase pB = 0 :=
    sampleAt_const _ _ _ _ (fun j i => by simp [gA, zeroGrid])
  have hvs : sampleAt gA gA.vvelsurf pB = 0 :=
    sampleAt_const _ _ _ _ (fun j i => by simp [gA, zeroGrid])
  simp only [stepParticle, h0, hs, ht, hub, hus, hvb, hvs]
  norm_num [pB]

/-- No seeding fires for `stB` at `t = 0`. -/
lemma pB_merged : mergedParticles prSimple gA stB 0 = [pB] := by
  simp only [mergedParticles, seedingFires, stB, prSimple]
  norm_num

/-- `pB` truncates to the out-of-bounds cell `(0, -5)`. -/
lemma pB_precell : preCell gA pB = (0, -5) := by
  norm_num [preCell, pyTrunc, iIdx, jIdx, gA, pB]

/-- C4 counterexample: with the surface particle `pB` outside the domain
(`x = -5`), the weight grid total is `0` while the sum of `wpos` over
particles with `rhpos = 1` is `1` — the conservation equality fails for
arbitrary particle positions. -/
theorem C4_counterexample :
    gridTotal gA.ny gA.nx
        (update_particles_v1 prSimple zeroOps gA 0 1 stB).2 = 0 ∧
    (((update_particles_v1 prSimple zeroOps gA 0 1 stB).1.particles.filter
        (fun q => decide (q.rhpos = 1))).map Particle.wpos).sum = 1 := by
  have hu : (update_particles_v1 prSimple zeroOps gA 0 1 stB).1.particles =
      [{ pB with xpos := -3 }] := by
    simp only [update_particles_fst, pB_merged,
      show prSimple.tracking_method = "simple" from rfl, pB_step,
      List.map_cons, List.map_nil]
  constructor
  · rw [update_weight, gridTotal_scatter, pB_merged]
    simp only [show prSimple.tracking_method = "simple" from rfl, pB_step,
      List.map_cons, List.map_nil, pB_precell, List.sum_cons, List.sum_nil]
    have hz : gridTotal gA.ny gA.nx (fun _ _ => 0) = 0 := by
      simp [gridTotal]
    rw [hz]
    have hob : ¬cellInBounds gA.ny gA.nx ((0 : ℤ), (-5 : ℤ)) := by
      rw [cellInBounds_iff]
      norm_num
    rw [if_neg hob]
    norm_num
  · rw [hu]
    norm_num [pB]
